import Mathlib

/-!
Verification of the order pricing and consistency engine of the
Order Management API (`src/main.py`, `src/schemas.py`).

The Python service is embedded shallowly:
* monetary values (Python floats) are modelled as exact rationals `ℚ`;
* the Python `round(x, 2)` is modelled as rounding to two decimals with
  round-half-to-even (`round2`);
* the MongoDB collections are modelled as association lists from numeric
  ids to records, with a fresh-id counter standing in for ObjectId
  generation;
* each endpoint handler becomes a pure function from the store state to
  `Except ApiError` of its result and the new store state; raising an
  `HTTPException` corresponds to returning `.error` and leaving the
  store untouched.
-/

/-- Round-half-to-even of a rational to the nearest integer, the tie-breaking
rule used by the Python built-in `round`. -/
def roundHalfEven (x : ℚ) : ℤ :=
  let f := ⌊x⌋
  let r := x - (f : ℚ)
  if r < 1/2 then f
  else if 1/2 < r then f + 1
  else if f % 2 = 0 then f else f + 1

/-- Model of `round(x, 2)` as used in `compute_totals`: round to two decimal places. -/
def round2 (x : ℚ) : ℚ := (roundHalfEven (x * 100) : ℚ) / 100

/-- Model of `OrderItem` from `src/schemas.py`: embedded item of an order.
Pydantic validates `quantity ≥ 1`, `unit_price ≥ 0`,
`discount_percent ∈ [0, 100]`; those bounds appear as hypotheses where a
theorem needs them. -/
structure OrderItem where
  name : String
  quantity : Nat
  unit_price : ℚ
  discount_percent : ℚ
deriving DecidableEq

/-- Result triple of `compute_totals` in `src/main.py`. -/
structure Totals where
  subtotal : ℚ
  discount_total : ℚ
  total : ℚ
deriving DecidableEq

/-- The accumulation loop of `compute_totals`: running pair
`(subtotal, item_discount_total)` over the items. -/
def accumulate (items : List OrderItem) : ℚ × ℚ :=
  items.foldl
    (fun s it =>
      let line_sub := (it.quantity : ℚ) * it.unit_price
      let line_discount := line_sub * (it.discount_percent / 100)
      (s.1 + line_sub, s.2 + line_discount))
    (0, 0)

/-- Unrounded subtotal: sum of `quantity * unit_price` over the items. -/
def subtotal_raw (items : List OrderItem) : ℚ := (accumulate items).1

/-- Unrounded sum of per-line discounts. -/
def item_discount_raw (items : List OrderItem) : ℚ := (accumulate items).2

/-- Unrounded `total_discount` (item discounts plus order-level discount). -/
def discount_raw (items : List OrderItem) (order_discount_percent : ℚ) : ℚ :=
  item_discount_raw items +
    (subtotal_raw items - item_discount_raw items) * (order_discount_percent / 100)

/-- Unrounded final total. -/
def total_raw (items : List OrderItem) (order_discount_percent : ℚ) : ℚ :=
  (subtotal_raw items - item_discount_raw items) -
    (subtotal_raw items - item_discount_raw items) * (order_discount_percent / 100)

/-- Model of `compute_totals` from `src/main.py` (the Pricing Engine): accumulate
line subtotals and line discounts unrounded, apply the order-level
discount to the post-item-discount amount, and round the three outputs
independently to two decimals only at the end. -/
def compute_totals (items : List OrderItem) (order_discount_percent : ℚ) : Totals :=
  let acc := accumulate items
  let subtotal := acc.1
  let item_discount_total := acc.2
  let after_item_discounts := subtotal - item_discount_total
  let order_discount := after_item_discounts * (order_discount_percent / 100)
  let total_discount := item_discount_total + order_discount
  let total := after_item_discounts - order_discount
  { subtotal := round2 subtotal
    discount_total := round2 total_discount
    total := round2 total }

/-- Model of `Customer` from `src/schemas.py`. -/
structure Customer where
  name : String
  email : String
  phone : Option String
  address : Option String
  note : Option String
deriving DecidableEq

/-- A persisted order document, as written by `create_order` /
`update_order` in `src/main.py`. -/
structure OrderDoc where
  customer_id : Nat
  status : String
  order_discount_percent : ℚ
  items : List OrderItem
  subtotal : ℚ
  discount_total : ℚ
  total : ℚ
deriving DecidableEq

/-- The two error shapes the handlers raise: HTTP 400 validation failures
and HTTP 404 lookups. -/
inductive ApiError where
  | validation (detail : String)
  | notFound (detail : String)
deriving DecidableEq

/-- The document store: the `customer` and `order` collections as
association lists keyed by id, plus a fresh-id counter standing in for
ObjectId generation. -/
structure DB where
  customers : List (Nat × Customer)
  orders : List (Nat × OrderDoc)
  nextId : Nat
deriving DecidableEq

/-- The empty store. -/
def emptyDB : DB := { customers := [], orders := [], nextId := 0 }

/-- Handler `create_customer` (`POST /customers`): reject the email if an
exact-match lookup finds an existing customer, otherwise insert. -/
def create_customer (db : DB) (c : Customer) : Except ApiError (Nat × DB) :=
  match db.customers.find? (fun p => p.2.email == c.email) with
  | some _ => .error (.validation "Email already exists")
  | none =>
      .ok (db.nextId,
        { db with
            customers := db.customers ++ [(db.nextId, c)]
            nextId := db.nextId + 1 })

/-- Handler `update_customer` (`PUT /customers/:id`): full replacement of the
fields of the customer; 404 when the id does not resolve. -/
def update_customer (db : DB) (cid : Nat) (c : Customer) : Except ApiError DB :=
  if db.customers.any (fun p => p.1 == cid) then
    .ok { db with
            customers := db.customers.map (fun p => if p.1 == cid then (p.1, c) else p) }
  else .error (.notFound "Customer not found")

/-- Handler `delete_customer` (`DELETE /customers/:id`): unconditional removal,
no cascade onto orders; 404 when the id does not resolve. -/
def delete_customer (db : DB) (cid : Nat) : Except ApiError DB :=
  if db.customers.any (fun p => p.1 == cid) then
    .ok { db with customers := db.customers.filter (fun p => p.1 != cid) }
  else .error (.notFound "Customer not found")

/-- Model of `OrderCreate` from `src/main.py`: creation payload with defaults
`status = "Pending"`, `order_discount_percent = 0`, `items = []`. The
`status` field keeps its `Optional` type; the Python default is applied
in `create_order`. -/
structure OrderCreate where
  customer_id : Nat
  status : Option String
  order_discount_percent : ℚ
  items : List OrderItem
deriving DecidableEq

/-- Handler `create_order` (`POST /orders`): verify the referenced customer
exists (400 `Invalid customer_id` otherwise), price the supplied items
with `compute_totals`, and persist the document; `payload.status or
"Pending"` maps a missing or empty status to `"Pending"`. -/
def create_order (db : DB) (payload : OrderCreate) : Except ApiError (Nat × DB) :=
  match db.customers.find? (fun p => p.1 == payload.customer_id) with
  | none => .error (.validation "Invalid customer_id")
  | some _ =>
      let totals := compute_totals payload.items payload.order_discount_percent
      let order_doc : OrderDoc :=
        { customer_id := payload.customer_id
          status := match payload.status with
            | none => "Pending"
            | some s => if s == "" then "Pending" else s
          order_discount_percent := payload.order_discount_percent
          items := payload.items
          subtotal := totals.subtotal
          discount_total := totals.discount_total
          total := totals.total }
      .ok (db.nextId,
        { db with
            orders := db.orders ++ [(db.nextId, order_doc)]
            nextId := db.nextId + 1 })

/-- Model of `OrderUpdate` from `src/main.py`: the parsed partial-update payload.
It declares exactly three optional fields; nothing else survives
parsing. -/
structure OrderUpdate where
  status : Option String
  order_discount_percent : Option ℚ
  items : Option (List OrderItem)
deriving DecidableEq

/-- A raw external update request body, before pydantic parsing: it may
also carry values for the derived fields. -/
structure RawOrderUpdate where
  status : Option String
  order_discount_percent : Option ℚ
  items : Option (List OrderItem)
  subtotal : Option ℚ
  discount_total : Option ℚ
  total : Option ℚ
deriving DecidableEq

/-- Pydantic parsing of a request body into `OrderUpdate`: fields not
declared on the model (here `subtotal`, `discount_total`, `total`) are
ignored, per the pydantic default behaviour for extra input fields. -/
def parseOrderUpdate (r : RawOrderUpdate) : OrderUpdate :=
  { status := r.status
    order_discount_percent := r.order_discount_percent
    items := r.items }

/-- The `update_fields` merge of `update_order`: overwrite whichever of
status / items / order_discount_percent was supplied, and recompute the
derived fields via `compute_totals` exactly when items and/or the order
discount was supplied, each omitted one falling back to the persisted
value. -/
def mergeOrderUpdate (d : OrderDoc) (u : OrderUpdate) : OrderDoc :=
  let d1 := match u.status with
    | some s => { d with status := s }
    | none => d
  let d2 := match u.items with
    | some its => { d1 with items := its }
    | none => d1
  let d3 := match u.order_discount_percent with
    | some v => { d2 with order_discount_percent := v }
    | none => d2
  if u.items.isSome || u.order_discount_percent.isSome then
    let totals := compute_totals (u.items.getD d.items)
        (u.order_discount_percent.getD d.order_discount_percent)
    { d3 with
        subtotal := totals.subtotal
        discount_total := totals.discount_total
        total := totals.total }
  else d3

/-- Handler `update_order` (`PUT /orders/:id`): 404 when the order id does not
resolve; otherwise merge the supplied fields (see `mergeOrderUpdate`);
when no recognized field was supplied the handler returns the stored
document without writing. -/
def update_order (db : DB) (oid : Nat) (u : OrderUpdate) :
    Except ApiError (OrderDoc × DB) :=
  match db.orders.find? (fun q => q.1 == oid) with
  | none => .error (.notFound "Order not found")
  | some p =>
      if u.status.isNone ∧ u.items.isNone ∧ u.order_discount_percent.isNone then
        .ok (p.2, db)
      else
        let d := mergeOrderUpdate p.2 u
        .ok (d,
          { db with
              orders := db.orders.map (fun q => if q.1 == oid then (q.1, d) else q) })

/-- Handler `delete_order` (`DELETE /orders/:id`): unconditional removal by id;
404 when the id does not resolve. -/
def delete_order (db : DB) (oid : Nat) : Except ApiError DB :=
  if db.orders.any (fun q => q.1 == oid) then
    .ok { db with orders := db.orders.filter (fun q => q.1 != oid) }
  else .error (.notFound "Order not found")

/-- The response of `GET /orders/:id`: the stored document plus the
read-time `customer_name` convenience field. -/
structure OrderView where
  doc : OrderDoc
  customer_name : Option String
deriving DecidableEq

/-- Handler `get_order` (`GET /orders/:id`): 404 when the order id does not
resolve; otherwise return the document as persisted, attaching the
name of the referenced customer when the reference still resolves and `none`
otherwise. -/
def get_order (db : DB) (oid : Nat) : Except ApiError OrderView :=
  match db.orders.find? (fun q => q.1 == oid) with
  | none => .error (.notFound "Order not found")
  | some p =>
      let cust := db.customers.find? (fun q => q.1 == p.2.customer_id)
      .ok { doc := p.2, customer_name := cust.map (fun q => q.2.name) }

/-- One state-mutating API call. -/
inductive Op where
  | createCustomer (c : Customer)
  | updateCustomer (cid : Nat) (c : Customer)
  | deleteCustomer (cid : Nat)
  | createOrder (payload : OrderCreate)
  | updateOrder (oid : Nat) (u : OrderUpdate)
  | deleteOrder (oid : Nat)
deriving DecidableEq

/-- Apply one API call to the store; a handler that raises leaves the
store unchanged. -/
def applyOp (db : DB) : Op → DB
  | .createCustomer c =>
      match create_customer db c with
      | .ok r => r.2
      | .error _ => db
  | .updateCustomer cid c =>
      match update_customer db cid c with
      | .ok db' => db'
      | .error _ => db
  | .deleteCustomer cid =>
      match delete_customer db cid with
      | .ok db' => db'
      | .error _ => db
  | .createOrder payload =>
      match create_order db payload with
      | .ok r => r.2
      | .error _ => db
  | .updateOrder oid u =>
      match update_order db oid u with
      | .ok r => r.2
      | .error _ => db
  | .deleteOrder oid =>
      match delete_order db oid with
      | .ok db' => db'
      | .error _ => db

/-- The store after a sequence of API calls starting from the empty
store: the observable states of the service are exactly the
`runOps ops` for some call sequence `ops`. -/
def runOps (ops : List Op) : DB := ops.foldl applyOp emptyDB

/-- An order document is consistent when its persisted derived fields
are exactly the Pricing Engine output for its items and discount. -/
def consistent (d : OrderDoc) : Prop :=
  d.subtotal = (compute_totals d.items d.order_discount_percent).subtotal ∧
  d.discount_total = (compute_totals d.items d.order_discount_percent).discount_total ∧
  d.total = (compute_totals d.items d.order_discount_percent).total

instance (d : OrderDoc) : Decidable (consistent d) := by
  unfold consistent; infer_instance

def allOrdersConsistent (db : DB) : Prop := ∀ p ∈ db.orders, consistent p.2

def tripleOf (t : Totals) : ℚ × ℚ × ℚ := (t.subtotal, t.discount_total, t.total)

def cexCustomer : Customer :=
  { name := "Ada", email := "a@x", phone := none, address := none, note := none }

def cexItem : OrderItem :=
  { name := "w", quantity := 1, unit_price := 2501/250, discount_percent := 0 }

def cexOps : List Op :=
  [.createCustomer cexCustomer,
   .createOrder { customer_id := 0, status := none,
                  order_discount_percent := 3/50, items := [cexItem] }]

def cexDoc : OrderDoc :=
  { customer_id := 0, status := "Pending", order_discount_percent := 3/50,
    items := [cexItem], subtotal := 10, discount_total := 1/100, total := 10 }

def sampleCustomer : Customer :=
  { name := "Bea", email := "b@x", phone := none, address := none, note := none }

def sampleOps : List Op :=
  [.createCustomer sampleCustomer,
   .createOrder { customer_id := 0, status := none, order_discount_percent := 0,
                  items := [] }]

def sampleDoc : OrderDoc :=
  { customer_id := 0, status := "Pending", order_discount_percent := 0,
    items := [], subtotal := 0, discount_total := 0, total := 0 }

def c4Item : OrderItem :=
  { name := "x", quantity := 2, unit_price := 50, discount_percent := 10 }

def wItem : OrderItem :=
  { name := "gadget", quantity := 2, unit_price := 5, discount_percent := 0 }

def wDoc : OrderDoc :=
  { customer_id := 0, status := "Pending", order_discount_percent := 10,
    items := [wItem], subtotal := 123, discount_total := 4, total := 119 }

def wDB : DB :=
  { customers := [(0, sampleCustomer)], orders := [(1, wDoc)], nextId := 2 }

def pay5 : OrderCreate :=
  { customer_id := 5, status := none, order_discount_percent := 0, items := [] }

def dupCustomer : Customer :=
  { name := "Eve", email := "b@x", phone := none, address := none, note := none }

def rawUpd : RawOrderUpdate :=
  { status := some "Paid", order_discount_percent := none, items := none,
    subtotal := some 999, discount_total := some 999, total := some 999 }

theorem total_raw_eq_sub (items : List OrderItem) (odp : ℚ) :
    total_raw items odp = subtotal_raw items - discount_raw items odp := by
  unfold total_raw discount_raw
  ring

theorem compute_totals_eq_raw (items : List OrderItem) (odp : ℚ) :
    compute_totals items odp =
      { subtotal := round2 (subtotal_raw items)
        discount_total := round2 (discount_raw items odp)
        total := round2 (total_raw items odp) } := rfl

theorem mergeOrderUpdate_customer_id (d : OrderDoc) (u : OrderUpdate) :
    (mergeOrderUpdate d u).customer_id = d.customer_id := by
  rcases u with ⟨s, odp, its⟩
  cases s <;> cases odp <;> cases its <;> simp [mergeOrderUpdate]

theorem mergeOrderUpdate_items (d : OrderDoc) (u : OrderUpdate) :
    (mergeOrderUpdate d u).items = u.items.getD d.items := by
  rcases u with ⟨s, odp, its⟩
  cases s <;> cases odp <;> cases its <;> simp [mergeOrderUpdate]

theorem mergeOrderUpdate_odp (d : OrderDoc) (u : OrderUpdate) :
    (mergeOrderUpdate d u).order_discount_percent =
      u.order_discount_percent.getD d.order_discount_percent := by
  rcases u with ⟨s, odp, its⟩
  cases s <;> cases odp <;> cases its <;> simp [mergeOrderUpdate]

theorem mergeOrderUpdate_triple (d : OrderDoc) (u : OrderUpdate) :
    ((mergeOrderUpdate d u).subtotal, (mergeOrderUpdate d u).discount_total,
      (mergeOrderUpdate d u).total) =
      if u.items.isSome || u.order_discount_percent.isSome then
        ((compute_totals (u.items.getD d.items)
            (u.order_discount_percent.getD d.order_discount_percent)).subtotal,
         (compute_totals (u.items.getD d.items)
            (u.order_discount_percent.getD d.order_discount_percent)).discount_total,
         (compute_totals (u.items.getD d.items)
            (u.order_discount_percent.getD d.order_discount_percent)).total)
      else (d.subtotal, d.discount_total, d.total) := by
  rcases u with ⟨s, odp, its⟩
  cases s <;> cases odp <;> cases its <;> simp [mergeOrderUpdate]

theorem mergeOrderUpdate_consistent (d : OrderDoc) (u : OrderUpdate)
    (h : consistent d) : consistent (mergeOrderUpdate d u) := by
  rcases u with ⟨s, odp, its⟩
  cases s <;> cases odp <;> cases its <;>
    simp_all [mergeOrderUpdate, consistent]

theorem inv_emptyDB : allOrdersConsistent emptyDB := by
  intro p hp
  simp [emptyDB] at hp

theorem inv_applyOp (db : DB) (op : Op) (h : allOrdersConsistent db) :
    allOrdersConsistent (applyOp db op) := by
  cases op with
  | createCustomer c =>
      intro p hp
      apply h
      revert hp
      unfold applyOp create_customer
      rcases hfind : db.customers.find? (fun q => q.2.email == c.email) with _ | q <;>
        simp [hfind]
  | updateCustomer cid c =>
      intro p hp
      apply h
      revert hp
      unfold applyOp update_customer
      by_cases hc : db.customers.any (fun q => q.1 == cid) <;> simp [hc]
  | deleteCustomer cid =>
      intro p hp
      apply h
      revert hp
      unfold applyOp delete_customer
      by_cases hc : db.customers.any (fun q => q.1 == cid) <;> simp [hc]
  | deleteOrder oid =>
      intro p hp
      apply h
      revert hp
      unfold applyOp delete_order
      by_cases hc : db.orders.any (fun q => q.1 == oid) <;> simp [hc]
      exact fun h1 _ => h1
  | createOrder payload =>
      intro p hp
      revert hp
      unfold applyOp create_order
      rcases hf : db.customers.find? (fun q => q.1 == payload.customer_id) with _ | q
      · simp only [hf]
        exact fun hp => h p hp
      · simp only [hf, List.mem_append, List.mem_singleton]
        rintro (hp | rfl)
        · exact h p hp
        · exact ⟨rfl, rfl, rfl⟩
  | updateOrder oid u =>
      intro p hp
      revert hp
      unfold applyOp update_order
      rcases hf : db.orders.find? (fun q => q.1 == oid) with _ | q
      · simp only [hf]
        exact fun hp => h p hp
      · by_cases hnone : u.status.isNone ∧ u.items.isNone ∧
            u.order_discount_percent.isNone
        · simp only [hf, if_pos hnone]
          exact fun hp => h p hp
        · simp only [hf, if_neg hnone, List.mem_map]
          rintro ⟨a, ha, rfl⟩
          by_cases hkey : a.1 == oid
          · simp only [hkey, if_true]
            exact mergeOrderUpdate_consistent q.2 u
              (h q (List.mem_of_find?_eq_some hf))
          · simp only [hkey, if_false]
            exact h a ha

theorem inv_foldl (ops : List Op) (db : DB) (h : allOrdersConsistent db) :
    allOrdersConsistent (ops.foldl applyOp db) := by
  induction ops generalizing db with
  | nil => exact h
  | cons op rest ih => exact ih _ (inv_applyOp db op h)

theorem inv_runOps (ops : List Op) : allOrdersConsistent (runOps ops) :=
  inv_foldl ops emptyDB inv_emptyDB

theorem round2_zero : round2 0 = 0 := by
  norm_num [round2, roundHalfEven]

theorem compute_totals_nil (odp : ℚ) :
    compute_totals [] odp = { subtotal := 0, discount_total := 0, total := 0 } := by
  simp [compute_totals, accumulate, round2_zero]

theorem mergeOrderUpdate_id (d : OrderDoc) :
    mergeOrderUpdate d { status := none, order_discount_percent := none, items := none } = d := rfl

theorem update_order_found (db : DB) (oid : Nat) (p : Nat × OrderDoc)
    (hf : db.orders.find? (fun q => q.1 == oid) = some p) (u : OrderUpdate) :
    ∃ db2, update_order db oid u = .ok (mergeOrderUpdate p.2 u, db2) := by
  unfold update_order
  simp only [hf]
  by_cases hnone : u.status.isNone ∧ u.items.isNone ∧ u.order_discount_percent.isNone
  · rw [if_pos hnone]
    refine ⟨db, ?_⟩
    obtain ⟨h1, h2, h3⟩ := hnone
    rcases u with ⟨s, odp, its⟩
    cases s <;> cases odp <;> cases its <;> simp_all [mergeOrderUpdate]
  · rw [if_neg hnone]
    exact ⟨_, rfl⟩

/-- C1 (amended): at every observable state the derived fields of each
persisted order are exactly the Pricing Engine output for its current items and
order discount, and the persisted total equals the two-decimal rounding of
the exact difference of the unrounded subtotal and unrounded discount
total. (The claimed equation between the already-rounded persisted values
fails; see the counterexample.) -/
theorem orders_always_engine_consistent (ops : List Op) (k : Nat) (d : OrderDoc)
    (h : (k, d) ∈ (runOps ops).orders) :
    consistent d ∧
    d.total = round2 (subtotal_raw d.items -
      discount_raw d.items d.order_discount_percent) := by
  have hc := inv_runOps ops (k, d) h
  refine ⟨hc, ?_⟩
  rw [hc.2.2, ← total_raw_eq_sub]
  rfl

/-- C1 counterexample: after creating an order with the single item
of quantity 1, unit price 10.004, item discount 0, and with order
discount percent 0.06, the persisted rounded values are subtotal 10.00,
discount_total 0.01, total 10.00, and 10.00 ≠ round2(10.00 − 0.01) =
9.99: the claimed equation between the persisted two-decimal-rounded
values fails at this observable state, with no rounding ties
involved. -/
theorem c1_rounded_equation_false :
    (1, cexDoc) ∈ (runOps cexOps).orders ∧
    cexDoc.total ≠ round2 (cexDoc.subtotal - cexDoc.discount_total) := by
  constructor
  · norm_num [runOps, applyOp, emptyDB, create_customer, create_order, cexOps,
      cexCustomer, cexItem, cexDoc, compute_totals, accumulate, round2,
      roundHalfEven, OrderDoc.mk.injEq]
  · norm_num [cexDoc, round2, roundHalfEven]

/-- Witness for the C1 theorem at a concrete reachable state. -/
theorem c1_witness :
    (1, sampleDoc) ∈ (runOps sampleOps).orders ∧
    (consistent sampleDoc ∧ sampleDoc.total =
      round2 (subtotal_raw sampleDoc.items -
        discount_raw sampleDoc.items sampleDoc.order_discount_percent)) := by
  have h : (1, sampleDoc) ∈ (runOps sampleOps).orders := by
    simp [runOps, applyOp, emptyDB, create_customer, create_order, sampleOps,
      sampleCustomer, sampleDoc, compute_totals_nil]
  exact ⟨h, orders_always_engine_consistent sampleOps 1 sampleDoc h⟩

/-- C2: when an update supplies only the order discount, the merged
document keeps the persisted items and is re-priced from them; when it
supplies only items, the persisted discount is used; when it supplies
both, both new values are used. -/
theorem update_order_omitted_field_fallback (db : DB) (oid : Nat)
    (p : Nat × OrderDoc)
    (hf : db.orders.find? (fun q => q.1 == oid) = some p)
    (v : ℚ) (its : List OrderItem) :
    (∃ db2 d2, update_order db oid
        { status := none, order_discount_percent := some v, items := none } =
          .ok (d2, db2) ∧
      d2.items = p.2.items ∧ d2.order_discount_percent = v ∧
      (d2.subtotal, d2.discount_total, d2.total) =
        tripleOf (compute_totals p.2.items v)) ∧
    (∃ db2 d2, update_order db oid
        { status := none, order_discount_percent := none, items := some its } =
          .ok (d2, db2) ∧
      d2.items = its ∧ d2.order_discount_percent = p.2.order_discount_percent ∧
      (d2.subtotal, d2.discount_total, d2.total) =
        tripleOf (compute_totals its p.2.order_discount_percent)) ∧
    (∃ db2 d2, update_order db oid
        { status := none, order_discount_percent := some v, items := some its } =
          .ok (d2, db2) ∧
      d2.items = its ∧ d2.order_discount_percent = v ∧
      (d2.subtotal, d2.discount_total, d2.total) =
        tripleOf (compute_totals its v)) := by
  refine ⟨?_, ?_, ?_⟩
  · obtain ⟨db2, hdb2⟩ := update_order_found db oid p hf
      { status := none, order_discount_percent := some v, items := none }
    exact ⟨db2, _, hdb2, rfl, rfl, rfl⟩
  · obtain ⟨db2, hdb2⟩ := update_order_found db oid p hf
      { status := none, order_discount_percent := none, items := some its }
    exact ⟨db2, _, hdb2, rfl, rfl, rfl⟩
  · obtain ⟨db2, hdb2⟩ := update_order_found db oid p hf
      { status := none, order_discount_percent := some v, items := some its }
    exact ⟨db2, _, hdb2, rfl, rfl, rfl⟩

/-- C3: the derived fields of the updated document are the Pricing
Engine output for the merged items and discount exactly when the
update supplied items and/or a discount, and otherwise are the persisted
values unchanged (for an arbitrary stored document, so in particular
even when recomputing would give different values). -/
theorem update_order_reprice_iff (db : DB) (oid : Nat) (p : Nat × OrderDoc)
    (hf : db.orders.find? (fun q => q.1 == oid) = some p) (u : OrderUpdate) :
    ∃ db2 d2, update_order db oid u = .ok (d2, db2) ∧
      (d2.subtotal, d2.discount_total, d2.total) =
        (if u.items.isSome || u.order_discount_percent.isSome then
          tripleOf (compute_totals (u.items.getD p.2.items)
            (u.order_discount_percent.getD p.2.order_discount_percent))
        else (p.2.subtotal, p.2.discount_total, p.2.total)) := by
  obtain ⟨db2, hdb2⟩ := update_order_found db oid p hf u
  refine ⟨db2, _, hdb2, ?_⟩
  have ht := mergeOrderUpdate_triple p.2 u
  by_cases htrig : u.items.isSome || u.order_discount_percent.isSome <;>
    simp_all [tripleOf]

/-- C9: an order update never changes the customer reference;
externally supplied subtotal / discount_total / total values are dropped
by the parsing boundary (`OrderUpdate` declares only status, discount
and items), so the outcome of the update is independent of them, and the
derived fields of the result come only from the Pricing Engine or the
previously persisted values. -/
theorem update_order_boundary_frame (db : DB) (oid : Nat) (p : Nat × OrderDoc)
    (hf : db.orders.find? (fun q => q.1 == oid) = some p)
    (r : RawOrderUpdate) :
    parseOrderUpdate r = parseOrderUpdate
      { r with subtotal := none, discount_total := none, total := none } ∧
    ∃ db2 d2, update_order db oid (parseOrderUpdate r) = .ok (d2, db2) ∧
      d2.customer_id = p.2.customer_id ∧
      (d2.subtotal, d2.discount_total, d2.total) =
        (if (parseOrderUpdate r).items.isSome ||
            (parseOrderUpdate r).order_discount_percent.isSome then
          tripleOf (compute_totals ((parseOrderUpdate r).items.getD p.2.items)
            ((parseOrderUpdate r).order_discount_percent.getD
              p.2.order_discount_percent))
        else (p.2.subtotal, p.2.discount_total, p.2.total)) := by
  refine ⟨rfl, ?_⟩
  obtain ⟨db2, hdb2⟩ := update_order_found db oid p hf (parseOrderUpdate r)
  refine ⟨db2, _, hdb2, mergeOrderUpdate_customer_id p.2 _, ?_⟩
  have ht := mergeOrderUpdate_triple p.2 (parseOrderUpdate r)
  by_cases htrig : (parseOrderUpdate r).items.isSome ||
      (parseOrderUpdate r).order_discount_percent.isSome <;>
    simp_all [tripleOf]

/-- C10: supplying an explicitly empty items list is a supplied value,
not an omitted one: the update re-prices against the empty list and
persists (0, 0, 0) rather than falling back to the stored items. -/
theorem update_order_explicit_empty_items (db : DB) (oid : Nat)
    (p : Nat × OrderDoc)
    (hf : db.orders.find? (fun q => q.1 == oid) = some p) :
    ∃ db2 d2, update_order db oid
        { status := none, order_discount_percent := none, items := some [] } =
          .ok (d2, db2) ∧
      d2.items = [] ∧ d2.subtotal = 0 ∧ d2.discount_total = 0 ∧ d2.total = 0 := by
  obtain ⟨db2, hdb2⟩ := update_order_found db oid p hf
    { status := none, order_discount_percent := none, items := some [] }
  refine ⟨db2, _, hdb2, rfl, ?_, ?_, ?_⟩ <;>
    simp [mergeOrderUpdate, compute_totals_nil]

/-- C4: the Pricing Engine on the single item {quantity 2, unit_price
50.00, discount_percent 10} with order discount 5 produces line subtotal
100.00, line discount 10.00, after-item-discounts 90.00, order discount
4.50, and returns (subtotal, discount_total, total) =
(100.00, 14.50, 85.50). -/
theorem compute_totals_worked_example :
    subtotal_raw [c4Item] = 100 ∧
    item_discount_raw [c4Item] = 10 ∧
    subtotal_raw [c4Item] - item_discount_raw [c4Item] = 90 ∧
    (subtotal_raw [c4Item] - item_discount_raw [c4Item]) * (5 / 100) = 9/2 ∧
    discount_raw [c4Item] 5 = 29/2 ∧
    compute_totals [c4Item] 5 =
      { subtotal := 100, discount_total := 29/2, total := 171/2 } := by
  norm_num [c4Item, subtotal_raw, item_discount_raw, discount_raw, accumulate,
    compute_totals, round2, roundHalfEven, Totals.mk.injEq]

/-- C5: creating an order whose customer id does not resolve fails with
the validation error and leaves the store exactly as before. -/
theorem create_order_invalid_customer (db : DB) (payload : OrderCreate)
    (h : db.customers.find? (fun q => q.1 == payload.customer_id) = none) :
    create_order db payload = .error (.validation "Invalid customer_id") ∧
    applyOp db (.createOrder payload) = db := by
  constructor <;> simp [create_order, applyOp, h]

/-- C6: creating a customer whose email exactly matches an existing
email of an existing customer fails with the validation error and leaves the store
exactly as before. -/
theorem create_customer_duplicate_email (db : DB) (c : Customer)
    (q : Nat × Customer)
    (h : db.customers.find? (fun p => p.2.email == c.email) = some q) :
    create_customer db c = .error (.validation "Email already exists") ∧
    applyOp db (.createCustomer c) = db := by
  constructor <;> simp [create_customer, applyOp, h]

/-- C7: the Pricing Engine on the empty item sequence returns
(0.00, 0.00, 0.00) for every order discount in [0, 100]. -/
theorem compute_totals_empty_items (odp : ℚ) (_h0 : 0 ≤ odp)
    (_h100 : odp ≤ 100) :
    compute_totals [] odp = { subtotal := 0, discount_total := 0, total := 0 } :=
  compute_totals_nil odp

/-- C8: deleting a customer referenced by an existing order succeeds
without touching the orders, and a subsequent read of that order returns
the persisted document with an absent customer name instead of
failing. -/
theorem delete_customer_orphan_read (db : DB) (cid oid : Nat)
    (p : Nat × OrderDoc)
    (hcust : db.customers.any (fun q => q.1 == cid) = true)
    (horder : db.orders.find? (fun q => q.1 == oid) = some p)
    (href : p.2.customer_id = cid) :
    ∃ db2, delete_customer db cid = .ok db2 ∧
      db2.orders = db.orders ∧
      get_order db2 oid = .ok { doc := p.2, customer_name := none } := by
  unfold delete_customer
  rw [if_pos hcust]
  refine ⟨_, rfl, rfl, ?_⟩
  have hnone : (db.customers.filter (fun q => q.1 != cid)).find?
      (fun q => q.1 == p.2.customer_id) = none := by
    rw [List.find?_eq_none]
    intro x hx
    rw [href]
    have hmem := (List.mem_filter.mp hx).2
    simpa using hmem
  simp [get_order, horder, hnone]

/-- Witness for the C2 theorem on a concrete store. -/
theorem c2_witness :
    wDB.orders.find? (fun q => q.1 == (1:Nat)) = some (1, wDoc) ∧
    ((∃ db2 d2, update_order wDB 1
        { status := none, order_discount_percent := some 7, items := none } =
          .ok (d2, db2) ∧
      d2.items = wDoc.items ∧ d2.order_discount_percent = 7 ∧
      (d2.subtotal, d2.discount_total, d2.total) =
        tripleOf (compute_totals wDoc.items 7)) ∧
    (∃ db2 d2, update_order wDB 1
        { status := none, order_discount_percent := none, items := some [] } =
          .ok (d2, db2) ∧
      d2.items = [] ∧ d2.order_discount_percent = wDoc.order_discount_percent ∧
      (d2.subtotal, d2.discount_total, d2.total) =
        tripleOf (compute_totals [] wDoc.order_discount_percent)) ∧
    (∃ db2 d2, update_order wDB 1
        { status := none, order_discount_percent := some 7, items := some [] } =
          .ok (d2, db2) ∧
      d2.items = [] ∧ d2.order_discount_percent = 7 ∧
      (d2.subtotal, d2.discount_total, d2.total) =
        tripleOf (compute_totals [] 7))) :=
  ⟨rfl, update_order_omitted_field_fallback wDB 1 (1, wDoc) rfl 7 []⟩

/-- Witness for the C3 theorem: a status-only update on a store whose
persisted totals (123, 4, 119) differ from what re-pricing would give
leaves the persisted totals exactly unchanged. -/
theorem c3_witness :
    wDB.orders.find? (fun q => q.1 == (1:Nat)) = some (1, wDoc) ∧
    (∃ db2 d2, update_order wDB 1
        { status := some "Paid", order_discount_percent := none, items := none } =
          .ok (d2, db2) ∧
      (d2.subtotal, d2.discount_total, d2.total) =
        (wDoc.subtotal, wDoc.discount_total, wDoc.total)) :=
  ⟨rfl, update_order_reprice_iff wDB 1 (1, wDoc) rfl
    { status := some "Paid", order_discount_percent := none, items := none }⟩

/-- Witness for the C5 theorem on a concrete store. -/
theorem c5_witness :
    wDB.customers.find? (fun q => q.1 == pay5.customer_id) = none ∧
    (create_order wDB pay5 = .error (.validation "Invalid customer_id") ∧
     applyOp wDB (.createOrder pay5) = wDB) :=
  ⟨rfl, create_order_invalid_customer wDB pay5 rfl⟩

/-- Witness for the C6 theorem on a concrete store. -/
theorem c6_witness :
    wDB.customers.find? (fun p => p.2.email == dupCustomer.email) =
      some (0, sampleCustomer) ∧
    (create_customer wDB dupCustomer =
        .error (.validation "Email already exists") ∧
     applyOp wDB (.createCustomer dupCustomer) = wDB) :=
  ⟨rfl, create_customer_duplicate_email wDB dupCustomer (0, sampleCustomer) rfl⟩

/-- Witness for the C7 theorem at order discount 50. -/
theorem c7_witness :
    (0:ℚ) ≤ 50 ∧ (50:ℚ) ≤ 100 ∧
    compute_totals [] 50 = { subtotal := 0, discount_total := 0, total := 0 } :=
  ⟨by decide, by decide,
   compute_totals_empty_items 50 (by decide) (by decide)⟩

/-- Witness for the C8 theorem on a concrete store. -/
theorem c8_witness :
    wDB.customers.any (fun q => q.1 == (0:Nat)) = true ∧
    wDB.orders.find? (fun q => q.1 == (1:Nat)) = some (1, wDoc) ∧
    wDoc.customer_id = 0 ∧
    (∃ db2, delete_customer wDB 0 = .ok db2 ∧ db2.orders = wDB.orders ∧
      get_order db2 1 = .ok { doc := wDoc, customer_name := none }) :=
  ⟨rfl, rfl, rfl, delete_customer_orphan_read wDB 0 1 (1, wDoc) rfl rfl rfl⟩

/-- Witness for the C9 theorem: a raw update carrying values for the
derived fields parses to a status-only update, which preserves the
customer reference and the persisted totals. -/
theorem c9_witness :
    wDB.orders.find? (fun q => q.1 == (1:Nat)) = some (1, wDoc) ∧
    (parseOrderUpdate rawUpd = parseOrderUpdate
      { rawUpd with subtotal := none, discount_total := none, total := none } ∧
     ∃ db2 d2, update_order wDB 1 (parseOrderUpdate rawUpd) = .ok (d2, db2) ∧
       d2.customer_id = wDoc.customer_id ∧
       (d2.subtotal, d2.discount_total, d2.total) =
         (wDoc.subtotal, wDoc.discount_total, wDoc.total)) :=
  ⟨rfl, update_order_boundary_frame wDB 1 (1, wDoc) rfl rawUpd⟩

/-- Witness for the C10 theorem on a concrete store. -/
theorem c10_witness :
    wDB.orders.find? (fun q => q.1 == (1:Nat)) = some (1, wDoc) ∧
    (∃ db2 d2, update_order wDB 1
        { status := none, order_discount_percent := none, items := some [] } =
          .ok (d2, db2) ∧
      d2.items = [] ∧ d2.subtotal = 0 ∧ d2.discount_total = 0 ∧ d2.total = 0) :=
  ⟨rfl, update_order_explicit_empty_items wDB 1 (1, wDoc) rfl⟩
